import Mathlib

/-!
Shallow embedding of the disease-detection backend (`src/server.js`).

Modelling choices:
- `Math.random()` draws are explicit rational parameters in `[0, 1)`.
- JavaScript object mutation through aliasing (the canned-response catalog
  shared between `getRandomResponse` and the request handler) is modelled by
  threading the catalog as explicit state through `analyze`.
- `JSON.stringify` / `JSON.parse` are modelled on a JSON value AST
  (`Json`): `resultToJson` serializes a `DetectionResult` in the field order
  JavaScript would emit, and `resultFromJson` parses it back.
- `statSync` failure is modelled by the file's stat being `none`.
- The `/api/detect` endpoint is the `upload.array('images', 2)` middleware
  followed by the handler body: `detectHandler` embeds the handler body, and
  `detectEndpoint` composes it with multer's documented `maxCount` behavior
  (3 or more parts abort with `LIMIT_UNEXPECTED_FILE`, a 500 through
  Express's default error handler, before the handler runs).
- The SQLite query `SELECT * FROM detection_logs ORDER BY created_at DESC
  LIMIT 10` is modelled as sorting the stored rows by descending creation
  time and taking the first 10.
-/

namespace DiseaseDetection

/-- A step of the simulated processing trace (`step`, `completed`, `duration`). -/
structure ProcessingStep where
  step : String
  completed : Bool
  duration : Nat
deriving DecidableEq, Repr

/-- A detection result as built by the handler.  `processingSteps` is optional
because the catalog entries in `simulatedResponses` initially lack the field;
the handler assigns it during analysis. -/
structure DetectionResult where
  status : String
  title : String
  message : String
  confidence : Nat
  color : String
  processingSteps : Option (List ProcessingStep)
deriving DecidableEq, Repr

instance : Inhabited DetectionResult :=
  ⟨{ status := "", title := "", message := "", confidence := 0, color := "",
     processingSteps := none }⟩

/-- The five canned outcomes (`simulatedResponses` in `server.js`). -/
def simulatedResponses : List DetectionResult :=
  [ { status := "healthy", title := "Healthy",
      message := "No disease detected. All crop samples appear normal and healthy.",
      confidence := 95, color := "green", processingSteps := none },
    { status := "warning", title := "Possible Disease Detected",
      message := "Early signs of fungal infection detected. Recommend treatment intervention.",
      confidence := 78, color := "yellow", processingSteps := none },
    { status := "critical", title := "Critical Disease Identified",
      message := "Severe disease markers detected. Immediate treatment recommended.",
      confidence := 88, color := "red", processingSteps := none },
    { status := "mild", title := "Minor Disease Indicators",
      message := "Mild disease patterns detected. Monitor for progression.",
      confidence := 72, color := "blue", processingSteps := none },
    { status := "moderate", title := "Moderate Risk Detected",
      message := "Moderate disease indicators present. Recommend specialist consultation.",
      confidence := 81, color := "orange", processingSteps := none } ]

/-- The four fixed rejection phrases (`invalidImageResponses` in `server.js`). -/
def invalidImageResponses : List String :=
  [ "Image quality too low for analysis",
    "Image appears to be synthetic or corrupted",
    "Unable to detect crop features in image",
    "Image dimensions incompatible with analysis model" ]

/-- `isValidCropImage` from `server.js`.  `stat` is the result of
`statSync(file.path).size` (`none` when the stat raises), `r` the
`Math.random()` draw. -/
def isValidCropImage (stat : Option Nat) (r : ℚ) : Bool :=
  match stat with
  | none => false
  | some fileSize =>
    let minSize := 50 * 1024
    let maxSize := 10 * 1024 * 1024
    if fileSize < minSize ∨ fileSize > maxSize then false
    else if r < 0.15 then false
    else true

/-- `getRandomInvalidImageMessage` from `server.js`:
`invalidImageResponses[Math.floor(Math.random() * invalidImageResponses.length)]`. -/
def getRandomInvalidImageMessage (r : ℚ) : String :=
  invalidImageResponses.getD (Nat.floor (r * (invalidImageResponses.length : ℚ))) default

/-- `getRandomResponse` from `server.js`; the catalog is passed explicitly
because the handler mutates it through the returned reference. -/
def getRandomResponse (r : ℚ) (cat : List DetectionResult) : DetectionResult :=
  cat.getD (Nat.floor (r * (cat.length : ℚ))) default

/-- The three-step trace assigned in the valid branch of the handler. -/
def validSteps : List ProcessingStep :=
  [ { step := "Image Recognition", completed := true, duration := 3000 },
    { step := "Crop Detection", completed := true, duration := 4000 },
    { step := "Disease Analysis", completed := true, duration := 8000 } ]

/-- The two-step trace built in the invalid branch of the handler. -/
def invalidSteps : List ProcessingStep :=
  [ { step := "Image Recognition", completed := true, duration := 3000 },
    { step := "Crop Detection", completed := false, duration := 0 } ]

/-- The analysis step of `app.post` (lines 167–192 of `server.js`).  Returns
the result together with the catalog after the request: in the valid branch
`result = getRandomResponse()` aliases a catalog entry, so the assignment
`result.processingSteps = [...]` also updates that entry, modelled by
`cat.set`. -/
def analyze (image1Valid image2Valid : Bool) (rPick : ℚ) (cat : List DetectionResult) :
    DetectionResult × List DetectionResult :=
  if !image1Valid || !image2Valid then
    ({ status := "invalid", title := "Invalid Image Detected",
       message := (if !image1Valid then "Sample 1: " else "Sample 2: ") ++
         getRandomInvalidImageMessage rPick,
       confidence := 0, color := "red", processingSteps := some invalidSteps }, cat)
  else
    let i := Nat.floor (rPick * (cat.length : ℚ))
    let result := { getRandomResponse rPick cat with processingSteps := some validSteps }
    (result, cat.set i result)

/-- JSON values, the target of `JSON.stringify` and source of `JSON.parse`. -/
inductive Json where
  | str : String → Json
  | num : Int → Json
  | bool : Bool → Json
  | null : Json
  | arr : List Json → Json
  | obj : List (String × Json) → Json
deriving Repr

/-- Serialization of one processing step, in JavaScript field order. -/
def stepToJson (s : ProcessingStep) : Json :=
  Json.obj [("step", Json.str s.step), ("completed", Json.bool s.completed),
            ("duration", Json.num (s.duration : Int))]

/-- Parse one processing step back from its JSON form. -/
def stepFromJson : Json → Option ProcessingStep
  | Json.obj [("step", Json.str st), ("completed", Json.bool c),
              ("duration", Json.num d)] =>
      if d < 0 then none else some { step := st, completed := c, duration := d.toNat }
  | _ => none

/-- Parse a list of processing steps, failing if any element fails. -/
def stepsFromJson : List Json → Option (List ProcessingStep)
  | [] => some []
  | j :: js =>
      match stepFromJson j, stepsFromJson js with
      | some s, some l => some (s :: l)
      | _, _ => none

/-- `JSON.stringify(result)` (line 194 of `server.js`) modelled on the JSON
AST; `processingSteps` is emitted only when the field is present, matching
JavaScript's omission of absent properties. -/
def resultToJson (r : DetectionResult) : Json :=
  Json.obj
    ([("status", Json.str r.status), ("title", Json.str r.title),
      ("message", Json.str r.message), ("confidence", Json.num (r.confidence : Int)),
      ("color", Json.str r.color)] ++
      (match r.processingSteps with
       | none => []
       | some steps => [("processingSteps", Json.arr (steps.map stepToJson))]))

/-- `JSON.parse(row.result)` (line 247 of `server.js`): recover the structured
result from its JSON form. -/
def resultFromJson : Json → Option DetectionResult
  | Json.obj [("status", Json.str s), ("title", Json.str t), ("message", Json.str m),
              ("confidence", Json.num c), ("color", Json.str col)] =>
      if c < 0 then none else
        some { status := s, title := t, message := m, confidence := c.toNat,
               color := col, processingSteps := none }
  | Json.obj [("status", Json.str s), ("title", Json.str t), ("message", Json.str m),
              ("confidence", Json.num c), ("color", Json.str col),
              ("processingSteps", Json.arr js)] =>
      if c < 0 then none else
        (stepsFromJson js).map (fun steps =>
          { status := s, title := t, message := m, confidence := c.toNat,
            color := col, processingSteps := some steps })
  | _ => none

/-- A row of the `detection_logs` table (id, two filenames, serialized result,
creation timestamp assigned by the store at insertion time). -/
structure LogRow where
  id : Nat
  image1_name : String
  image2_name : String
  result : Json
  created_at : Nat
deriving Repr

/-- A history entry as returned by `GET /api/history`: the stored row with its
`result` column deserialized into structured form. -/
structure HistoryEntry where
  id : Nat
  image1_name : String
  image2_name : String
  result : Option DetectionResult
  created_at : Nat
deriving Repr

/-- The ordering used by `ORDER BY created_at DESC`: descending creation time. -/
def rowGE (a b : LogRow) : Prop := b.created_at ≤ a.created_at

instance : DecidableRel rowGE := fun a b => Nat.decLe b.created_at a.created_at

instance : IsTotal LogRow rowGE := ⟨fun a b => Nat.le_total b.created_at a.created_at⟩

instance : IsTrans LogRow rowGE := ⟨fun _ _ _ hab hbc => le_trans hbc hab⟩

/-- `SELECT * FROM detection_logs ORDER BY created_at DESC LIMIT 10`: sort the
stored rows by descending creation time and keep the first 10. -/
def recentRows (rows : List LogRow) : List LogRow :=
  (List.insertionSort rowGE rows).take 10

/-- The `GET /api/history` handler body (lines 233–256 of `server.js`): fetch
the recent rows and deserialize each row's `result` column. -/
def historyHandler (rows : List LogRow) : List HistoryEntry :=
  (recentRows rows).map fun row =>
    { id := row.id, image1_name := row.image1_name, image2_name := row.image2_name,
      result := resultFromJson row.result, created_at := row.created_at }

/-- An uploaded file as seen by the handler: the generated storage filename and
the outcome of `statSync` on its path (`none` models an I/O failure). -/
structure UploadedFile where
  filename : String
  stat : Option Nat
deriving DecidableEq, Repr

/-- The `Math.random()` draws consumed by one detection request: one validity
draw per file and one selection draw (used by whichever of
`getRandomInvalidImageMessage` / `getRandomResponse` runs). -/
structure Draws where
  r1 : ℚ
  r2 : ℚ
  rPick : ℚ
deriving Repr

/-- The `data` object of a successful `POST /api/detect` response. -/
structure RespData where
  id : Nat
  images : List String
  result : DetectionResult
deriving DecidableEq, Repr

/-- The observable outcome of one `POST /api/detect` request: the HTTP
response, the artificial delay imposed (none when the request was rejected
before analysis), the rows appended to the log, and the catalog state after
the request. -/
structure HandlerOutcome where
  httpStatus : Nat
  success : Bool
  error : Option String
  data : Option RespData
  delay : Option Nat
  appended : List LogRow
  catalog : List DetectionResult
deriving Repr

/-- The 400 error message for a wrong file count. -/
def countError : String := "Exactly 2 images are required for disease detection"

/-- The 500 error message for a failed log insert. -/
def logError : String := "Failed to log detection"

/-- The `POST /api/detect` handler body (lines 153–231 of `server.js`).
`files` is `req.files`, `dbOk` tells whether the `INSERT` succeeds, `newId`
is the id the store would assign, `now` the creation timestamp it would
record. -/
def detectHandler (files : Option (List UploadedFile)) (d : Draws)
    (cat : List DetectionResult) (dbOk : Bool) (newId : Nat) (now : Nat) :
    HandlerOutcome :=
  match files with
  | some [image1, image2] =>
      let image1Valid := isValidCropImage image1.stat d.r1
      let image2Valid := isValidCropImage image2.stat d.r2
      let isInvalid := !image1Valid || !image2Valid
      let res := analyze image1Valid image2Valid d.rPick cat
      let resultText := resultToJson res.1
      let delay := if isInvalid then 7000 else 15000
      if dbOk then
        { httpStatus := 200, success := true, error := none,
          data := some { id := newId,
                         images := ["/uploads/" ++ image1.filename,
                                    "/uploads/" ++ image2.filename],
                         result := res.1 },
          delay := some delay,
          appended := [{ id := newId, image1_name := image1.filename,
                         image2_name := image2.filename, result := resultText,
                         created_at := now }],
          catalog := res.2 }
      else
        { httpStatus := 500, success := false, error := some logError,
          data := none, delay := some delay, appended := [], catalog := res.2 }
  | _ =>
      { httpStatus := 400, success := false, error := some countError,
        data := none, delay := none, appended := [], catalog := cat }

/-- The multer error code raised when a file part exceeds `maxCount`. -/
def multerUnexpectedFile : String := "LIMIT_UNEXPECTED_FILE"

/-- The full `/api/detect` endpoint: the `upload.array` middleware followed by
the handler.  The middleware is multer, configured at `server.js` lines 34–44
and applied at line 153 as `upload.array('images', 2)`; per multer's
documented `maxCount` behavior, a third file part in the field aborts the
request with `MulterError('LIMIT_UNEXPECTED_FILE')`, and since the app
registers no error-handling middleware, Express's default handler turns it
into a 500 response — the route handler never runs and nothing is appended.
With at most two parts, multer stores them and the handler receives
`req.files`. -/
def detectEndpoint (parts : List UploadedFile) (d : Draws)
    (cat : List DetectionResult) (dbOk : Bool) (newId : Nat) (now : Nat) :
    HandlerOutcome :=
  if parts.length > 2 then
    { httpStatus := 500, success := false, error := some multerUnexpectedFile,
      data := none, delay := none, appended := [], catalog := cat }
  else
    detectHandler (some parts) d cat dbOk newId now

/-! ### Helper lemmas -/

theorem getD_mem_of_lt {α : Type _} :
    ∀ (l : List α) (n : Nat) (d : α), n < l.length → l.getD n d ∈ l
  | a :: l, 0, _, _ => List.mem_cons_self a l
  | a :: l, n + 1, d, h =>
      List.mem_cons_of_mem a (getD_mem_of_lt l n d (by simpa using h))

theorem getD_mem_or_default {α : Type _} (l : List α) (n : Nat) (d : α) :
    l.getD n d ∈ l ∨ l.getD n d = d := by
  rcases lt_or_ge n l.length with h | h
  · exact Or.inl (getD_mem_of_lt l n d h)
  · right
    simp [List.getD_eq_getElem?_getD, List.getElem?_eq_none h]

theorem getD_set_self {α : Type _} :
    ∀ (l : List α) (i : Nat) (a d : α), i < l.length → (l.set i a).getD i d = a
  | _ :: _, 0, _, _, _ => rfl
  | b :: l, i + 1, a, d, h => by
      simpa using getD_set_self l i a d (by simpa using h)

theorem getD_set_ne {α : Type _} :
    ∀ (l : List α) (i j : Nat) (a d : α), j ≠ i → (l.set i a).getD j d = l.getD j d
  | [], _, _, _, _, _ => rfl
  | b :: l, 0, 0, a, d, h => absurd rfl h
  | b :: l, 0, j + 1, a, d, _ => rfl
  | b :: l, i + 1, 0, a, d, _ => rfl
  | b :: l, i + 1, j + 1, a, d, h => by
      simpa using getD_set_ne l i j a d (fun hc => h (by simp [hc]))

/-- For a draw in `[0, 1)`, `Math.floor(r * n)` is a valid index into a list
of length `n`. -/
theorem floor_pick_lt {r : ℚ} {n : Nat} (h0 : 0 ≤ r) (h1 : r < 1) (hn : 0 < n) :
    Nat.floor (r * (n : ℚ)) < n := by
  have hnq : (0 : ℚ) < (n : ℚ) := by exact_mod_cast hn
  have hlt : r * (n : ℚ) < (n : ℚ) := by
    calc r * (n : ℚ) < 1 * (n : ℚ) := mul_lt_mul_of_pos_right h1 hnq
    _ = (n : ℚ) := one_mul _
  exact (Nat.floor_lt (by positivity)).mpr hlt

/-- Evaluation of `analyze` when at least one validity flag is false. -/
theorem analyze_invalid_eq (v1 v2 : Bool) (r : ℚ) (cat : List DetectionResult)
    (h : (!v1 || !v2) = true) :
    analyze v1 v2 r cat =
      ({ status := "invalid", title := "Invalid Image Detected",
         message := (if !v1 then "Sample 1: " else "Sample 2: ") ++
           getRandomInvalidImageMessage r,
         confidence := 0, color := "red", processingSteps := some invalidSteps },
       cat) := by
  simp [analyze, h]

/-- Evaluation of the result component of `analyze` when both flags are true:
the selected catalog entry with the three-step trace assigned. -/
theorem analyze_valid_fst (r : ℚ) (cat : List DetectionResult) :
    (analyze true true r cat).1 =
      { cat.getD (Nat.floor (r * (cat.length : ℚ))) default with
        processingSteps := some validSteps } := by
  simp [analyze, getRandomResponse]

/-- Evaluation of the catalog component of `analyze` when both flags are true:
the selected entry is overwritten with the returned result. -/
theorem analyze_valid_snd (r : ℚ) (cat : List DetectionResult) :
    (analyze true true r cat).2 =
      cat.set (Nat.floor (r * (cat.length : ℚ))) (analyze true true r cat).1 := by
  simp [analyze, getRandomResponse]

/-- The status of the analysis result is `invalid` exactly when at least one
file failed validation, provided no catalog entry carries status `invalid`. -/
theorem analyze_status_iff (v1 v2 : Bool) (r : ℚ) (cat : List DetectionResult)
    (hcat : ∀ e ∈ cat, e.status ≠ "invalid") :
    ((analyze v1 v2 r cat).1.status = "invalid") ↔ (v1 = false ∨ v2 = false) := by
  cases v1 with
  | false =>
      rw [analyze_invalid_eq false v2 r cat (by simp)]
      simp
  | true =>
      cases v2 with
      | false =>
          rw [analyze_invalid_eq true false r cat (by simp)]
          simp
      | true =>
          rw [analyze_valid_fst]
          have hne : (cat.getD (Nat.floor (r * (cat.length : ℚ))) default).status ≠
              "invalid" := by
            rcases getD_mem_or_default cat (Nat.floor (r * (cat.length : ℚ)))
                default with hm | hd
            · exact hcat _ hm
            · rw [hd]; decide
          rw [List.getD_eq_getElem?_getD] at hne
          simp [hne]

/-- Round trip for a single processing step. -/
theorem stepFromJson_stepToJson (s : ProcessingStep) :
    stepFromJson (stepToJson s) = some s := by
  cases s with
  | mk st c du =>
      simp [stepToJson, stepFromJson, Int.not_lt.mpr (Int.natCast_nonneg du),
        Int.toNat_natCast]

/-- Round trip for a list of processing steps. -/
theorem stepsFromJson_map (l : List ProcessingStep) :
    stepsFromJson (l.map stepToJson) = some l := by
  induction l with
  | nil => rfl
  | cons a t ih =>
      simp only [List.map_cons, stepsFromJson, stepFromJson_stepToJson a, ih]

/-! ### Claim theorems -/

/-- Claim C4: the validity classifier returns false whenever the stored byte
size is strictly below 50 KiB or strictly above 10 MiB, regardless of the
random draw; for sizes within `[50 KiB, 10 MiB]` it returns false exactly when
the uniform random draw is below 0.15. -/
theorem isValidCropImage_size_policy (sz : Nat) (r : ℚ) :
    ((sz < 50 * 1024 ∨ sz > 10 * 1024 * 1024) →
      isValidCropImage (some sz) r = false) ∧
    (50 * 1024 ≤ sz → sz ≤ 10 * 1024 * 1024 →
      (isValidCropImage (some sz) r = false ↔ r < 0.15)) := by
  constructor
  · intro h
    simp [isValidCropImage, h]
  · intro hlo hhi
    have hc : ¬(sz < 50 * 1024 ∨ sz > 10 * 1024 * 1024) := by omega
    by_cases hr : r < 0.15 <;> simp [isValidCropImage, hc, hr]

/-- Witness for C4: a 100-byte file is rejected regardless of the draw, and a
100000-byte file is rejected exactly when the draw is below 0.15 (at draw
1/10, it is rejected). -/
theorem isValidCropImage_size_policy_witness :
    isValidCropImage (some 100) (1/2) = false ∧
    (isValidCropImage (some 100000) (1/10) = false ↔ (1/10 : ℚ) < 0.15) := by
  constructor
  · exact (isValidCropImage_size_policy 100 (1/2)).1 (by norm_num)
  · exact (isValidCropImage_size_policy 100000 (1/10)).2 (by norm_num) (by norm_num)

/-- Claim C7: serializing a `DetectionResult` at append time and deserializing
it during history retrieval yields a value structurally equal to the
original. -/
theorem result_serialization_roundtrip (r : DetectionResult) :
    resultFromJson (resultToJson r) = some r := by
  cases r with
  | mk s t m c col ps =>
      cases ps with
      | none =>
          simp [resultToJson, resultFromJson,
            Int.not_lt.mpr (Int.natCast_nonneg c), Int.toNat_natCast]
      | some steps =>
          simp [resultToJson, resultFromJson, stepsFromJson_map,
            Int.not_lt.mpr (Int.natCast_nonneg c), Int.toNat_natCast]

/-- Claim C8: the validity classifier and the analysis step are total — for
every input they produce a result — and an I/O failure during the size check
(`stat = none`) makes the file invalid. -/
theorem classifier_and_analysis_total :
    (∀ r : ℚ, isValidCropImage none r = false) ∧
    (∀ (stat : Option Nat) (r : ℚ),
      isValidCropImage stat r = false ∨ isValidCropImage stat r = true) ∧
    (∀ (v1 v2 : Bool) (r : ℚ) (cat : List DetectionResult),
      ∃ out, analyze v1 v2 r cat = out) := by
  refine ⟨fun _ => rfl, fun stat r => ?_, fun v1 v2 r cat => ⟨_, rfl⟩⟩
  cases h : isValidCropImage stat r
  · exact Or.inl rfl
  · exact Or.inr rfl

theorem not_or_eq_true_iff (a b : Bool) :
    ((!a || !b) = true) ↔ (a = false ∨ b = false) := by
  cases a <;> cases b <;> simp

/-- Claim C1: every result produced by the analysis step satisfies the step
invariant — when the status is `invalid` the confidence is 0 and there are
exactly two steps (first completed, second not); otherwise there are exactly
three steps, all completed.  Holds for every catalog state whose entries never
carry status `invalid` (true of the initial catalog and preserved by the
handler, which never changes an entry's status). -/
theorem analyze_steps_invariant (v1 v2 : Bool) (r : ℚ) (cat : List DetectionResult)
    (hcat : ∀ e ∈ cat, e.status ≠ "invalid") :
    ((analyze v1 v2 r cat).1.status = "invalid" →
      (analyze v1 v2 r cat).1.confidence = 0 ∧
      ∃ s1 s2, (analyze v1 v2 r cat).1.processingSteps = some [s1, s2] ∧
        s1.completed = true ∧ s2.completed = false) ∧
    ((analyze v1 v2 r cat).1.status ≠ "invalid" →
      ∃ s1 s2 s3, (analyze v1 v2 r cat).1.processingSteps = some [s1, s2, s3] ∧
        s1.completed = true ∧ s2.completed = true ∧ s3.completed = true) := by
  by_cases hb : (!v1 || !v2) = true
  · rw [analyze_invalid_eq v1 v2 r cat hb]
    constructor
    · intro _
      exact ⟨rfl, ⟨"Image Recognition", true, 3000⟩, ⟨"Crop Detection", false, 0⟩,
        rfl, rfl, rfl⟩
    · intro hne
      exact absurd rfl hne
  · obtain ⟨h1, h2⟩ := not_or.mp ((not_or_eq_true_iff v1 v2).not.mp hb)
    obtain ⟨hv1, hv2⟩ : v1 = true ∧ v2 = true :=
      ⟨eq_true_of_ne_false h1, eq_true_of_ne_false h2⟩
    subst hv1; subst hv2
    have hns : ¬(analyze true true r cat).1.status = "invalid" := by
      rw [analyze_status_iff true true r cat hcat]
      simp
    constructor
    · intro hs
      exact absurd hs hns
    · intro _
      refine ⟨⟨"Image Recognition", true, 3000⟩, ⟨"Crop Detection", true, 4000⟩,
        ⟨"Disease Analysis", true, 8000⟩, ?_, rfl, rfl, rfl⟩
      rw [analyze_valid_fst]
      rfl

/-- Witness for C1 at a concrete invalid input: first file invalid, draw 1/2,
initial catalog. -/
theorem analyze_steps_invariant_witness :
    (analyze false true (1/2) simulatedResponses).1.confidence = 0 ∧
    ∃ s1 s2,
      (analyze false true (1/2) simulatedResponses).1.processingSteps = some [s1, s2] ∧
      s1.completed = true ∧ s2.completed = false :=
  (analyze_steps_invariant false true (1/2) simulatedResponses (by decide)).1
    (by rw [analyze_invalid_eq false true (1/2) simulatedResponses (by decide)])

/-- Claim C3: whenever at least one file is invalid, the result status is
`invalid` and the message begins with "Sample 1: " when the first file is
invalid (including when both are), and with "Sample 2: " when only the second
is; the remainder is one of the four fixed rejection phrases. -/
theorem analyze_invalid_message (v1 v2 : Bool) (r : ℚ) (cat : List DetectionResult)
    (hv : v1 = false ∨ v2 = false) (h0 : 0 ≤ r) (h1 : r < 1) :
    (analyze v1 v2 r cat).1.status = "invalid" ∧
    ∃ p ∈ invalidImageResponses,
      (analyze v1 v2 r cat).1.message =
        (if v1 = false then "Sample 1: " else "Sample 2: ") ++ p := by
  have hb : (!v1 || !v2) = true := (not_or_eq_true_iff v1 v2).mpr hv
  rw [analyze_invalid_eq v1 v2 r cat hb]
  refine ⟨rfl, ⟨getRandomInvalidImageMessage r, ?_, ?_⟩⟩
  · unfold getRandomInvalidImageMessage
    exact getD_mem_of_lt _ _ _
      (floor_pick_lt h0 h1 (by simp [invalidImageResponses]))
  · cases v1 <;> simp

/-- Witness for C3: first file invalid at draw 1/2 on the initial catalog. -/
theorem analyze_invalid_message_witness :
    (analyze false true (1/2) simulatedResponses).1.status = "invalid" ∧
    ∃ p ∈ invalidImageResponses,
      (analyze false true (1/2) simulatedResponses).1.message =
        (if false = false then "Sample 1: " else "Sample 2: ") ++ p :=
  analyze_invalid_message false true (1/2) simulatedResponses (Or.inl rfl)
    (by norm_num) (by norm_num)

/-- Handler-body lemma: whenever `req.files` is absent or its length is not 2,
the handler body responds 400 with the file-count error body and appends
nothing.  Note the length-3+ arms are unreachable through the endpoint, since
the `upload.array('images', 2)` middleware aborts such requests first (see
`detectEndpoint` and `detect_three_files_bug`); through the middleware the
handler sees only 0, 1 or 2 files. -/
theorem detect_wrong_count (files : Option (List UploadedFile)) (d : Draws)
    (cat : List DetectionResult) (dbOk : Bool) (newId now : Nat)
    (h : ∀ fs, files = some fs → fs.length ≠ 2) :
    (detectHandler files d cat dbOk newId now).httpStatus = 400 ∧
    (detectHandler files d cat dbOk newId now).success = false ∧
    (detectHandler files d cat dbOk newId now).error = some countError ∧
    (detectHandler files d cat dbOk newId now).appended = [] := by
  match files with
  | none => exact ⟨rfl, rfl, rfl, rfl⟩
  | some [] => exact ⟨rfl, rfl, rfl, rfl⟩
  | some [a] => exact ⟨rfl, rfl, rfl, rfl⟩
  | some (a :: b :: c :: t) => exact ⟨rfl, rfl, rfl, rfl⟩
  | some [a, b] => exact absurd rfl (h [a, b] rfl)

/-- Concrete sample inputs used by the witnesses. -/
def sampleFile1 : UploadedFile := { filename := "a.jpg", stat := some 100000 }

def sampleFile2 : UploadedFile := { filename := "b.jpg", stat := some 200000 }

def sampleDraws : Draws := { r1 := 1/2, r2 := 1/2, rPick := 1/2 }

def sampleFile3 : UploadedFile := { filename := "c.jpg", stat := some 150000 }

/-- Witness for the handler-body lemma: an empty upload list is rejected with
400 and no append. -/
theorem detect_wrong_count_witness :
    (detectHandler (some []) sampleDraws simulatedResponses true 1 0).httpStatus = 400 ∧
    (detectHandler (some []) sampleDraws simulatedResponses true 1 0).success = false ∧
    (detectHandler (some []) sampleDraws simulatedResponses true 1 0).error =
      some countError ∧
    (detectHandler (some []) sampleDraws simulatedResponses true 1 0).appended = [] :=
  detect_wrong_count (some []) sampleDraws simulatedResponses true 1 0
    (by intro fs h; injection h with h2; subst h2; decide)

/-- Claim C2 (code bug): at the failing input — a submission with three file
parts — the endpoint responds 500 with the middleware error, not the 400
file-count body, and appends nothing, because `upload.array('images', 2)`
aborts before the handler's length check can run; whereas at zero files the
endpoint does return the claimed 400 body.  The claim's 400-for-3+ behavior
is the evident intent of the handler's own `length !== 2` check, which the
middleware's `maxCount` makes unreachable. -/
theorem detect_three_files_bug :
    (detectEndpoint [sampleFile1, sampleFile2, sampleFile3] sampleDraws
        simulatedResponses true 1 0).httpStatus = 500 ∧
    (detectEndpoint [sampleFile1, sampleFile2, sampleFile3] sampleDraws
        simulatedResponses true 1 0).error = some multerUnexpectedFile ∧
    (detectEndpoint [sampleFile1, sampleFile2, sampleFile3] sampleDraws
        simulatedResponses true 1 0).error ≠ some countError ∧
    (detectEndpoint [sampleFile1, sampleFile2, sampleFile3] sampleDraws
        simulatedResponses true 1 0).appended = [] ∧
    (detectEndpoint [] sampleDraws simulatedResponses true 1 0).httpStatus = 400 ∧
    (detectEndpoint [] sampleDraws simulatedResponses true 1 0).error =
      some countError ∧
    (detectEndpoint [] sampleDraws simulatedResponses true 1 0).appended = [] := by
  refine ⟨rfl, rfl, ?_, rfl, rfl, rfl, rfl⟩
  decide

/-- Claim C6: every submission that completes successfully carried exactly two
files, appended exactly one log row, and that row's two stored filenames are
the storage filenames of the first and second uploaded file, in order. -/
theorem detect_success_appends (files : Option (List UploadedFile)) (d : Draws)
    (cat : List DetectionResult) (dbOk : Bool) (newId now : Nat)
    (h : (detectHandler files d cat dbOk newId now).success = true) :
    ∃ f1 f2 row, files = some [f1, f2] ∧
      (detectHandler files d cat dbOk newId now).appended = [row] ∧
      row.image1_name = f1.filename ∧ row.image2_name = f2.filename := by
  match files with
  | none => exact absurd h (by simp [detectHandler])
  | some [] => exact absurd h (by simp [detectHandler])
  | some [a] => exact absurd h (by simp [detectHandler])
  | some (a :: b :: c :: t) => exact absurd h (by simp [detectHandler])
  | some [a, b] =>
      cases dbOk with
      | false => exact absurd h (by simp [detectHandler])
      | true =>
          refine ⟨a, b,
            { id := newId, image1_name := a.filename, image2_name := b.filename,
              result := resultToJson (analyze (isValidCropImage a.stat d.r1)
                (isValidCropImage b.stat d.r2) d.rPick cat).1,
              created_at := now }, rfl, ?_, rfl, rfl⟩
          rfl

/-- Witness for C6: a successful two-file submission at concrete inputs. -/
theorem detect_success_appends_witness :
    ∃ f1 f2 row,
      (some [sampleFile1, sampleFile2] : Option (List UploadedFile)) = some [f1, f2] ∧
      (detectHandler (some [sampleFile1, sampleFile2]) sampleDraws simulatedResponses
        true 1 0).appended = [row] ∧
      row.image1_name = f1.filename ∧ row.image2_name = f2.filename :=
  detect_success_appends (some [sampleFile1, sampleFile2]) sampleDraws
    simulatedResponses true 1 0 (by norm_num [detectHandler, isValidCropImage])

/-- Claim C9: for every detection request that reaches analysis, the artificial
delay imposed before persisting and responding is 7000 ms when the result
status is `invalid` and 15000 ms otherwise. -/
theorem detect_delay_policy (f1 f2 : UploadedFile) (d : Draws)
    (cat : List DetectionResult) (dbOk : Bool) (newId now : Nat)
    (hcat : ∀ e ∈ cat, e.status ≠ "invalid") :
    (detectHandler (some [f1, f2]) d cat dbOk newId now).delay =
      some (if (analyze (isValidCropImage f1.stat d.r1) (isValidCropImage f2.stat d.r2)
          d.rPick cat).1.status = "invalid" then 7000 else 15000) := by
  have hiff := analyze_status_iff (isValidCropImage f1.stat d.r1)
    (isValidCropImage f2.stat d.r2) d.rPick cat hcat
  by_cases hb :
      (!(isValidCropImage f1.stat d.r1) || !(isValidCropImage f2.stat d.r2)) = true
  · have hst := hiff.mpr ((not_or_eq_true_iff _ _).mp hb)
    cases dbOk <;> simp [detectHandler, hb, hst]
  · have hst : ¬(analyze (isValidCropImage f1.stat d.r1)
        (isValidCropImage f2.stat d.r2) d.rPick cat).1.status = "invalid" :=
      fun hc => hb ((not_or_eq_true_iff _ _).mpr (hiff.mp hc))
    cases dbOk <;> simp [detectHandler, hb, hst]

/-- Witness for C9 at concrete inputs (both files valid, store succeeding). -/
theorem detect_delay_policy_witness :
    (detectHandler (some [sampleFile1, sampleFile2]) sampleDraws simulatedResponses
        true 1 0).delay =
      some (if (analyze (isValidCropImage sampleFile1.stat sampleDraws.r1)
          (isValidCropImage sampleFile2.stat sampleDraws.r2) sampleDraws.rPick
          simulatedResponses).1.status = "invalid" then 7000 else 15000) :=
  detect_delay_policy sampleFile1 sampleFile2 sampleDraws simulatedResponses true 1 0
    (by decide)

/-- Claim C5: for any contents of the log (any insertion order), the history
operation returns at most 10 entries, sorted by creation time descending, and
each returned entry's `result` field is the deserialized structured form of a
stored row's serialized result. -/
theorem history_spec (rows : List LogRow) :
    (historyHandler rows).length ≤ 10 ∧
    List.Sorted (fun a b : HistoryEntry => b.created_at ≤ a.created_at)
      (historyHandler rows) ∧
    ∀ e ∈ historyHandler rows, ∃ row, row ∈ rows ∧
      e.result = resultFromJson row.result ∧ e.id = row.id ∧
      e.created_at = row.created_at := by
  refine ⟨?_, ?_, ?_⟩
  · rw [historyHandler, List.length_map, recentRows]
    exact List.length_take_le 10 _
  · have hs : List.Pairwise rowGE (List.insertionSort rowGE rows) :=
      List.sorted_insertionSort rowGE rows
    have ht : List.Pairwise rowGE (recentRows rows) :=
      hs.sublist (List.take_sublist 10 _)
    rw [historyHandler]
    exact List.pairwise_map.mpr (ht.imp fun h => h)
  · intro e he
    rw [historyHandler, List.mem_map] at he
    obtain ⟨row, hrow, hE⟩ := he
    have hmem : row ∈ rows := by
      rw [recentRows] at hrow
      exact (List.perm_insertionSort rowGE rows).mem_iff.mp (List.mem_of_mem_take hrow)
    subst hE
    exact ⟨row, hmem, rfl, rfl, rfl⟩

/-- Two concrete log rows, inserted out of creation order. -/
def sampleRow1 : LogRow :=
  { id := 1, image1_name := "a.jpg", image2_name := "b.jpg",
    result := Json.null, created_at := 5 }

def sampleRow2 : LogRow :=
  { id := 2, image1_name := "c.jpg", image2_name := "d.jpg",
    result := Json.null, created_at := 9 }

/-- Witness for C5 at a concrete log whose rows were inserted oldest-first. -/
theorem history_spec_witness :
    (historyHandler [sampleRow1, sampleRow2]).length ≤ 10 ∧
    List.Sorted (fun a b : HistoryEntry => b.created_at ≤ a.created_at)
      (historyHandler [sampleRow1, sampleRow2]) ∧
    ∀ e ∈ historyHandler [sampleRow1, sampleRow2], ∃ row, row ∈ [sampleRow1, sampleRow2] ∧
      e.result = resultFromJson row.result ∧ e.id = row.id ∧
      e.created_at = row.created_at :=
  history_spec [sampleRow1, sampleRow2]

/-- Claim C10: when both files are valid, the selected canned outcome is the
shared catalog entry itself, not a copy — the updated catalog stores, at the
selected index, exactly the returned result (now carrying
`processingSteps = validSteps`, a field no initial catalog entry has), while
all other entries are untouched.  Holds for any 5-entry catalog state, so the
field persists across later requests. -/
theorem catalog_aliasing_mutation (r : ℚ) (cat : List DetectionResult)
    (h0 : 0 ≤ r) (h1 : r < 1) (hlen : cat.length = 5) :
    (∀ e ∈ simulatedResponses, e.processingSteps = none) ∧
    (analyze true true r cat).2 =
      cat.set (Nat.floor (r * (cat.length : ℚ))) (analyze true true r cat).1 ∧
    (analyze true true r cat).2.getD (Nat.floor (r * (cat.length : ℚ))) default =
      (analyze true true r cat).1 ∧
    (analyze true true r cat).1.processingSteps = some validSteps ∧
    ∀ j, j ≠ Nat.floor (r * (cat.length : ℚ)) →
      (analyze true true r cat).2.getD j default = cat.getD j default := by
  have hi : Nat.floor (r * (cat.length : ℚ)) < cat.length :=
    floor_pick_lt h0 h1 (by omega)
  refine ⟨by decide, analyze_valid_snd r cat, ?_, ?_, ?_⟩
  · rw [analyze_valid_snd]
    exact getD_set_self _ _ _ _ hi
  · rw [analyze_valid_fst]
  · intro j hj
    rw [analyze_valid_snd]
    exact getD_set_ne _ _ _ _ _ hj

/-- Witness for C10: draw 1/5 on the initial catalog selects index 1 and
permanently writes the three-step trace into it. -/
theorem catalog_aliasing_mutation_witness :
    (∀ e ∈ simulatedResponses, e.processingSteps = none) ∧
    (analyze true true (1/5) simulatedResponses).2 =
      simulatedResponses.set
        (Nat.floor ((1/5 : ℚ) * (simulatedResponses.length : ℚ)))
        (analyze true true (1/5) simulatedResponses).1 ∧
    (analyze true true (1/5) simulatedResponses).2.getD
        (Nat.floor ((1/5 : ℚ) * (simulatedResponses.length : ℚ))) default =
      (analyze true true (1/5) simulatedResponses).1 ∧
    (analyze true true (1/5) simulatedResponses).1.processingSteps = some validSteps ∧
    ∀ j, j ≠ Nat.floor ((1/5 : ℚ) * (simulatedResponses.length : ℚ)) →
      (analyze true true (1/5) simulatedResponses).2.getD j default =
        simulatedResponses.getD j default :=
  catalog_aliasing_mutation (1/5) simulatedResponses (by norm_num) (by norm_num) rfl

end DiseaseDetection
